import Mathlib

set_option linter.unusedVariables false

/-!
Verification of the STIM Query Assistant pipeline (`stimapp.py`).

A shallow embedding of the natural-language-to-SQL pipeline of
`src/stimapp.py`, together with theorems settling the specification
claims about it.

The embedding covers
* the response sanitizer of `generate_sql_query` (lines 186-189):
  `strip()`, `replace('```sql', '')`, `replace('```', '')`, `strip()`;
* the prompt and chat-request construction of `generate_sql_query`
  (lines 142-184);
* the per-action control flow of `main` (lines 196-274): credential
  guard, empty-question guard, generation call, scoped connection,
  execution under `try`/`except`, and the empty/non-empty result
  branches;
* the seeded demo database of `create_demo_db` (lines 28-132); monetary
  amounts are embedded in cents and share percentages in hundredths of
  a percent, so every decimal literal of the seed script is exact.

External effects (the OpenAI chat completion, the SQLite engine) are
parameters: the service is a function from the constructed chat request
to an outcome, and SQL execution is an oracle from query text to either
rows or an engine diagnostic. The pipeline threads an explicit counter
record through the points of the code where a network call is issued, a
connection is opened or closed, or an execution is attempted, so that
call-count and resource-release properties become statements about the
final counters.
-/

/-!
Python string primitives used by the sanitizer at lines 186-189.
-/

/-- The whitespace characters removed by Python `str.strip()`
(restricted to the ASCII whitespace the pipeline can meet). -/
def isPySpace (c : Char) : Bool :=
  c = ' ' || c = '\t' || c = '\n' || c = '\r' || c = '\x0b' || c = '\x0c'

/-- Python `str.lstrip()` on a list of characters. -/
def lstrip (s : List Char) : List Char :=
  s.dropWhile isPySpace

/-- Python `str.rstrip()` on a list of characters. -/
def rstrip (s : List Char) : List Char :=
  (s.reverse.dropWhile isPySpace).reverse

/-- Python `str.strip()` on a list of characters: drop leading and
trailing whitespace. -/
def pyStrip (s : List Char) : List Char :=
  rstrip (lstrip s)

/-- Python `str.strip()` on a `String`. -/
def pyStripStr (s : String) : String :=
  String.mk (pyStrip s.data)

/-- Python `s.replace('```sql', '')` (line 188): scan left to right and
delete every non-overlapping occurrence of the six characters of the
opening fence tag; the first matching arm wins, exactly like Python's
scan. -/
def dropSqlFence : List Char → List Char
  | '`' :: '`' :: '`' :: 's' :: 'q' :: 'l' :: rest => dropSqlFence rest
  | c :: rest => c :: dropSqlFence rest
  | [] => []

/-- Python `s.replace('```', '')` (line 188): scan left to right and
delete every non-overlapping occurrence of three consecutive
backticks. -/
def dropFence : List Char → List Char
  | '`' :: '`' :: '`' :: rest => dropFence rest
  | c :: rest => c :: dropFence rest
  | [] => []

/-- The three-backtick fence marker. -/
def fence3 : List Char := ['`', '`', '`']

/-- The fence marker with the `sql` language tag. -/
def fenceSql : List Char := ['`', '`', '`', 's', 'q', 'l']

/-- The number of leading backticks of a character list. -/
def leadTicks : List Char → Nat
  | '`' :: rest => leadTicks rest + 1
  | _ => 0

/-- Lines 186-189 of `generate_sql_query`:
`content.strip().replace('```sql', '').replace('```', '').strip()`. -/
def sanitizeChars (s : List Char) : List Char :=
  pyStrip (dropFence (dropSqlFence (pyStrip s)))

/-- The sanitizer on `String`s, exactly what `generate_sql_query`
returns when the completion call hands back `content`. -/
def sanitizeStr (s : String) : String :=
  String.mk (sanitizeChars s.data)

/-!
Prompt and chat-request construction, lines 142-184.
-/

/-- The fixed instructional template up to the interpolated schema
(lines 142-170 of the f-string). -/
def promptHead : String :=
  "\nYou are an expert SQL generator. Generate a query following this structure:\n\nWITH\n-- Common Table Expressions (CTEs) for complex subqueries\nbase_data AS (\n    -- Initial data gathering\n),\ntransformed_data AS (\n    -- Data transformations\n)\n\n-- Main query\nSELECT \n    -- Columns with clear aliases\n    column AS meaningful_name\nFROM base_data\n-- JOINs in logical order\nLEFT JOIN other_table ON conditions\n-- Filtering\nWHERE conditions\n-- Grouping\nGROUP BY columns\n-- Having clauses for group filtering\nHAVING conditions\n-- Final ordering\nORDER BY columns;\n\nSchema:\n"

/-- The template between the interpolated schema and the interpolated
user question (lines 171-173 of the f-string). -/
def promptMid : String :=
  "\n\nUser question: "

/-- The closing instruction of the template (line 175 of the
f-string). -/
def promptTail : String :=
  "\n\nReturn ONLY the raw SQL query, no markdown formatting, no ```sql tags, no backticks."

/-- The f-string of lines 142-175: the fixed template with the schema
description and the user question interpolated verbatim. -/
def buildPrompt (user_question schema_description : String) : String :=
  promptHead ++ schema_description ++ promptMid ++ user_question ++ promptTail

/-- The system message of the chat request (line 180). -/
def systemMessage : String :=
  "You are an expert SQL query generator that produces clean, structured queries without any markdown formatting."

/-- One message of the chat-completion request. -/
structure ChatMessage where
  role : String
  content : String
deriving DecidableEq

/-- The request sent by `client.chat.completions.create` at lines
177-184: model name, system and user messages, and the sampling
temperature. -/
structure ChatRequest where
  model : String
  messages : List ChatMessage
  temperature : Nat
deriving DecidableEq

/-- The chat request constructed by `generate_sql_query`
(lines 177-184): fixed model, fixed system message, the composed
prompt as the single user message, and `temperature=0`. -/
def buildChatRequest (user_question schema_description : String) : ChatRequest :=
  { model := "gpt-3.5-turbo"
    messages :=
      [ { role := "system", content := systemMessage },
        { role := "user", content := buildPrompt user_question schema_description } ]
    temperature := 0 }

/-!
The per-action pipeline of `main`, lines 196-274.
-/

/-- One row of the materialized result table (`pandas` DataFrame row),
as column-name/value pairs. -/
abbrev Row := List (String × String)

/-- The outcome of one chat-completion call: either the text
`response.choices[0].message.content`, or an exception raised by the
client (connection error, timeout, API error). -/
inductive SvcOutcome where
  | ok (content : String)
  | exn (msg : String)
deriving DecidableEq

/-- Counters for the externally visible events of one user action:
outbound generation calls, SQL execution attempts, and connection
opens/closes on the engine handle. -/
structure CallCounts where
  genCalls : Nat
  execAttempts : Nat
  connOpened : Nat
  connClosed : Nat
deriving DecidableEq

/-- The counter state before the button handler runs. -/
def noCalls : CallCounts := ⟨0, 0, 0, 0⟩

/-- `generate_sql_query` (lines 139-189): builds the chat request,
issues exactly one service call, and either propagates the raised
exception (`Except.error`) or returns the sanitized response text.
The `api_key` parameter mirrors the source signature; the key is
consumed by the client constructor at line 140. -/
def generate_sql_query (user_question schema_description api_key : String)
    (svc : ChatRequest → SvcOutcome) (counts : CallCounts) :
    Except String String × CallCounts :=
  let counts2 : CallCounts := { counts with genCalls := counts.genCalls + 1 }
  match svc (buildChatRequest user_question schema_description) with
  | .exn msg => (.error msg, counts2)
  | .ok content => (.ok (sanitizeStr content), counts2)

/-- Lines 263-264: `with engine.connect() as conn:
df = pd.read_sql(text(sql_code), conn)`. The context manager opens a
scoped connection and closes it on both the normal and the exceptional
exit path, which is why `connClosed` is incremented in both cases;
`runSql` is the engine oracle, returning rows or the raised engine
diagnostic. -/
def readSqlScoped (runSql : String → Except String (List Row)) (sql : String)
    (counts : CallCounts) : Except String (List Row) × CallCounts :=
  let counts2 : CallCounts :=
    { counts with
        connOpened := counts.connOpened + 1
        execAttempts := counts.execAttempts + 1 }
  let result := runSql sql
  let counts3 : CallCounts := { counts2 with connClosed := counts2.connClosed + 1 }
  (result, counts3)

/-- What one button press surfaces to the presentation layer. Each
constructor is one exit of the handler in `main`:
`authenticationError` is the blocking credential prompt of lines
200-204 (`st.warning` and early return, the spec's
AuthenticationError); `emptyQuestionWarning` is line 254;
`uncaughtException` is an exception that escapes `main` because no
handler encloses the call site; `noData` is line 267
(`"No rows returned."`); `results` is the rendered DataFrame of lines
269-272; `executionError` is line 274 (`st.error` with the engine
diagnostic interpolated). -/
inductive Outcome where
  | authenticationError
  | emptyQuestionWarning
  | uncaughtException (msg : String)
  | noData (sql : String)
  | results (sql : String) (rows : List Row)
  | executionError (sql : String) (userMsg : String)
deriving DecidableEq

/-- The schema text of lines 208-241, passed verbatim into the
prompt. -/
def schema_text : String :=
  "\nTables:\n\n1) works(\n    work_id INTEGER PRIMARY KEY,\n    title TEXT,\n    created_year INTEGER\n)\n\n2) contributors(\n    contributor_id INTEGER PRIMARY KEY,\n    name TEXT,\n    is_publisher BOOLEAN\n)\n\n3) work_contributors(\n    work_id INTEGER,\n    contributor_id INTEGER,\n    share_percentage REAL\n)\n\n4) royalties(\n    royalty_id INTEGER PRIMARY KEY,\n    work_id INTEGER,\n    amount NUMERIC,\n    period_start TEXT,\n    period_end TEXT\n)\n\nRelationships:\n- works <-> work_contributors: 1-to-many (one work can have multiple entries in work_contributors)\n- contributors <-> work_contributors: 1-to-many (one contributor can appear on multiple works)\n- works <-> royalties: 1-to-many (one work can have multiple royalty entries)\n"

/-- Lines 199-204: the effective key is the environment key when set,
otherwise whatever the password box holds (`if not api_key:` falls
through to the text input). -/
def effectiveKey (envApiKey enteredKey : String) : String :=
  if envApiKey = "" then enteredKey else envApiKey

/-- One press of the "Run Query" button (lines 196-274 of `main`):
credential guard, empty-question guard, one `generate_sql_query` call
(not enclosed by any `try`), then the `try`/`except` block around the
scoped execution with its empty/non-empty result branches. -/
def runQueryAction (envApiKey enteredKey user_query : String)
    (svc : ChatRequest → SvcOutcome)
    (runSql : String → Except String (List Row)) : Outcome × CallCounts :=
  if effectiveKey envApiKey enteredKey = "" then (.authenticationError, noCalls)
  else if pyStripStr user_query = "" then (.emptyQuestionWarning, noCalls)
  else
    match generate_sql_query user_query schema_text
        (effectiveKey envApiKey enteredKey) svc noCalls with
    | (.error e, counts) => (.uncaughtException e, counts)
    | (.ok sql_code, counts) =>
      match readSqlScoped runSql sql_code counts with
      | (.error e, counts2) =>
        (.executionError sql_code ("Error executing SQL: " ++ e), counts2)
      | (.ok df, counts2) =>
        if df.isEmpty then (.noData sql_code, counts2)
        else (.results sql_code df, counts2)

/-!
The seeded demo database of `create_demo_db`, lines 28-132.
-/

/-- A row of the `works` table. -/
structure Work where
  work_id : Nat
  title : String
  created_year : Nat
deriving DecidableEq

/-- A row of the `contributors` table. -/
structure Contributor where
  contributor_id : Nat
  name : String
  is_publisher : Bool
deriving DecidableEq

/-- A row of the `work_contributors` table; `share_hundredths` holds
`share_percentage` in hundredths of a percent, so the seed literal
`33.33` is the exact value `3333`. -/
structure WorkContributor where
  work_id : Nat
  contributor_id : Nat
  share_hundredths : Nat
deriving DecidableEq

/-- A row of the `royalties` table; `amount_cents` holds `amount` in
cents, so the seed literal `1500.00` is the exact value `150000`. -/
structure Royalty where
  royalty_id : Nat
  work_id : Nat
  amount_cents : Nat
  period_start : String
  period_end : String
deriving DecidableEq

/-- The seed rows of `works` (lines 83-90). -/
def works_rows : List Work :=
  [⟨1, "Dancing Queen", 1976⟩,
   ⟨2, "Mamma Mia", 1975⟩,
   ⟨3, "Fernando", 1976⟩,
   ⟨4, "Waterloo", 1974⟩]

/-- The seed rows of `contributors` (lines 93-100). -/
def contributors_rows : List Contributor :=
  [⟨101, "Benny Andersson", false⟩,
   ⟨102, "Björn Ulvaeus", false⟩,
   ⟨103, "Polar Music", true⟩,
   ⟨104, "ABBA Manager", true⟩]

/-- The seed rows of `work_contributors` (lines 103-118). -/
def work_contributors_rows : List WorkContributor :=
  [⟨1, 101, 5000⟩, ⟨1, 102, 5000⟩,
   ⟨2, 101, 4000⟩, ⟨2, 102, 4000⟩, ⟨2, 103, 2000⟩,
   ⟨3, 101, 3333⟩, ⟨3, 102, 3333⟩, ⟨3, 103, 3334⟩,
   ⟨4, 101, 2500⟩, ⟨4, 102, 2500⟩, ⟨4, 103, 2500⟩, ⟨4, 104, 2500⟩]

/-- The seed rows of `royalties` (lines 121-130). -/
def royalties_rows : List Royalty :=
  [⟨1001, 1, 150000, "2022-01-01", "2022-06-30"⟩,
   ⟨1002, 1, 170000, "2022-07-01", "2022-12-31"⟩,
   ⟨1003, 2, 220000, "2022-01-01", "2022-12-31"⟩,
   ⟨1004, 3, 180000, "2022-01-01", "2022-06-30"⟩,
   ⟨1005, 3, 190000, "2022-07-01", "2022-12-31"⟩,
   ⟨1006, 4, 300000, "2022-01-01", "2022-12-31"⟩]

/-- A royalty row lies in the 2022 period when both period bounds fall
in 2022. -/
def inPeriod2022 (r : Royalty) : Bool :=
  "2022".data.isPrefixOf r.period_start.data &&
    "2022".data.isPrefixOf r.period_end.data

/-- The royalty rows of the 2022 period. -/
def royalties2022 : List Royalty :=
  royalties_rows.filter inPeriod2022

/-- The summed `amount` (in cents) of the 2022 royalty rows of one
work: the per-work aggregate of a grouped total-royalties query. -/
def totalRoyaltyCents2022 (w : Nat) : Nat :=
  ((royalties2022.filter (fun r => r.work_id == w)).map Royalty.amount_cents).sum

/-- The distinct works holding royalty rows in the 2022 period: the row
set of a per-work grouped total-royalties query. -/
def worksWithRoyalties2022 : List Nat :=
  (royalties2022.map Royalty.work_id).dedup

/-- The summed `share_percentage` (in hundredths of a percent) of one
work's rows in `work_contributors`. -/
def shareSumHundredths (w : Nat) : Nat :=
  ((work_contributors_rows.filter (fun r => r.work_id == w)).map
    WorkContributor.share_hundredths).sum

/-!
Helper lemmas about the Python string primitives.
-/

example : sanitizeStr "  ```sql\nSELECT 1;\n```  " = "SELECT 1;" := by decide

example : sanitizeStr " x " = "x" := by decide

theorem dropFence_cons (c : Char) (rest : List Char)
    (h : ∀ rest2, c = '`' → rest = '`' :: '`' :: rest2 → False) :
    dropFence (c :: rest) = c :: dropFence rest := by
  rw [dropFence.eq_def]
  split
  · rename_i rest2 heq
    injection heq with h1 h2
    exact absurd trivial (fun _ => h rest2 h1 h2)
  · rename_i c2 rest2 hne heq
    injection heq with h1 h2
    subst h1; subst h2; rfl
  · rename_i heq
    exact absurd heq (List.cons_ne_nil c rest)

theorem leadTicks_cons_tick (rest : List Char) :
    leadTicks ('`' :: rest) = leadTicks rest + 1 := rfl

theorem leadTicks_cons_ne (c : Char) (rest : List Char) (h : c ≠ '`') :
    leadTicks (c :: rest) = 0 := by
  rw [leadTicks.eq_def]
  split
  · rename_i rest2 heq
    injection heq with h1 _
    exact absurd h1 h
  · rfl

theorem leadTicks_dropFence (s : List Char) : leadTicks (dropFence s) ≤ leadTicks s := by
  induction s using dropFence.induct with
  | case1 rest ih =>
    show leadTicks (dropFence rest) ≤ leadTicks ('`' :: '`' :: '`' :: rest)
    simp only [leadTicks_cons_tick]
    omega
  | case2 c rest h ih =>
    rw [dropFence_cons c rest h]
    by_cases hc : c = '`'
    · subst hc
      simp only [leadTicks_cons_tick]
      omega
    · rw [leadTicks_cons_ne c _ hc, leadTicks_cons_ne c _ hc]
  | case3 => simp [dropFence]

theorem two_ticks_lead {u : List Char} (h : ['`', '`'] <+: u) : 2 ≤ leadTicks u := by
  obtain ⟨t, rfl⟩ := h
  simp only [List.cons_append, leadTicks_cons_tick]
  omega

theorem leadTicks_two_shape {rest : List Char} (h : 2 ≤ leadTicks rest) :
    ∃ rest2, rest = '`' :: '`' :: rest2 := by
  match rest with
  | [] => simp [leadTicks] at h
  | [c] =>
    by_cases hc : c = '`'
    · subst hc; simp [leadTicks] at h
    · rw [leadTicks_cons_ne c _ hc] at h; omega
  | c :: d :: rest2 =>
    by_cases hc : c = '`'
    · subst hc
      by_cases hd : d = '`'
      · subst hd; exact ⟨rest2, rfl⟩
      · rw [leadTicks_cons_tick, leadTicks_cons_ne d _ hd] at h; omega
    · rw [leadTicks_cons_ne c _ hc] at h; omega

theorem no_fence_dropFence (s : List Char) : ¬ fence3 <:+: dropFence s := by
  induction s using dropFence.induct with
  | case1 rest ih =>
    show ¬ fence3 <:+: dropFence ('`' :: '`' :: '`' :: rest)
    rw [show dropFence ('`' :: '`' :: '`' :: rest) = dropFence rest from rfl]
    exact ih
  | case2 c rest h ih =>
    rw [dropFence_cons c rest h]
    intro hinf
    rcases List.infix_cons_iff.mp hinf with hpre | htail
    · obtain ⟨t, ht⟩ := hpre
      rw [show fence3 ++ t = '`' :: ('`' :: '`' :: t) from rfl] at ht
      injection ht with h1 h2
      have h2le : 2 ≤ leadTicks (dropFence rest) := by
        rw [← h2]
        exact two_ticks_lead ⟨t, rfl⟩
      have hlead := le_trans h2le (leadTicks_dropFence rest)
      obtain ⟨rest2, hr⟩ := leadTicks_two_shape hlead
      exact h rest2 h1.symm hr
    · exact ih htail
  | case3 => simp [dropFence, fence3]

theorem dropWhile_dropWhile (p : Char → Bool) (l : List Char) :
    (l.dropWhile p).dropWhile p = l.dropWhile p := by
  induction l with
  | nil => rfl
  | cons c rest ih =>
    by_cases h : p c
    · simp [List.dropWhile_cons, h, ih]
    · simp [List.dropWhile_cons, h]

theorem lstrip_idem (l : List Char) : lstrip (lstrip l) = lstrip l :=
  dropWhile_dropWhile isPySpace l

theorem rstrip_idem (l : List Char) : rstrip (rstrip l) = rstrip l := by
  simp [rstrip, List.reverse_reverse, dropWhile_dropWhile]

theorem rstrip_starts (l : List Char) : rstrip l <+: l := by
  rw [show l = l.reverse.reverse from (List.reverse_reverse l).symm, rstrip]
  rw [List.reverse_reverse]
  exact List.reverse_prefix.mpr (List.dropWhile_suffix isPySpace)

theorem lstrip_fix_of_starts {l t : List Char} (hl : lstrip l = l) (ht : t <+: l) :
    lstrip t = t := by
  match t, ht with
  | [], _ => rfl
  | c :: t2, ⟨u, hu⟩ =>
    have hc : isPySpace c = false := by
      rw [← hu] at hl
      by_contra hcc
      have hcc2 : isPySpace c = true := by
        cases h2 : isPySpace c
        · exact absurd h2 hcc
        · rfl
      rw [lstrip, List.cons_append, List.dropWhile_cons, hcc2, if_pos rfl] at hl
      have hle := List.IsSuffix.length_le (List.dropWhile_suffix (l := t2 ++ u) isPySpace)
      have h3 : (List.dropWhile isPySpace (t2 ++ u)).length = (c :: (t2 ++ u)).length := by
        rw [hl]
      rw [List.length_cons] at h3
      omega
    rw [lstrip, List.dropWhile_cons, hc]
    simp

theorem pyStrip_idem (l : List Char) : pyStrip (pyStrip l) = pyStrip l := by
  have h1 : lstrip (pyStrip l) = pyStrip l :=
    lstrip_fix_of_starts (lstrip_idem l) (rstrip_starts (lstrip l))
  rw [pyStrip, h1]
  exact rstrip_idem (lstrip l)

theorem pyStrip_within (l : List Char) : pyStrip l <:+: l :=
  List.infix_iff_prefix_suffix.mpr
    ⟨lstrip l, rstrip_starts (lstrip l), List.dropWhile_suffix isPySpace⟩

theorem fence3_starts_fenceSql : fence3 <+: fenceSql := ⟨['s', 'q', 'l'], rfl⟩

theorem no_sql_of_no_fence {l : List Char} (h : ¬ fence3 <:+: l) : ¬ fenceSql <:+: l :=
  fun hsql => h ( List.IsInfix.trans ( List.IsPrefix.isInfix fence3_starts_fenceSql) hsql)

theorem no_fence_tail {c : Char} {rest : List Char}
    (h : ¬ fence3 <:+: c :: rest) : ¬ fence3 <:+: rest :=
  fun h2 => h ( List.infix_cons h2)

theorem dropSqlFence_of_no_fence {l : List Char} (h : ¬ fence3 <:+: l) :
    dropSqlFence l = l := by
  induction l with
  | nil => rfl
  | cons c rest ih =>
    rw [dropSqlFence.eq_def]
    split
    · rename_i rest2 heq
      exfalso
      apply h
      injection heq with h1 h2
      subst h1; subst h2
      exact ⟨[], 's' :: 'q' :: 'l' :: rest2, rfl⟩
    · rename_i c2 rest2 hne heq
      injection heq with h1 h2
      subst h1; subst h2
      rw [ih (no_fence_tail h)]
    · rename_i heq
      cases heq

theorem dropFence_of_no_fence {l : List Char} (h : ¬ fence3 <:+: l) :
    dropFence l = l := by
  induction l with
  | nil => rfl
  | cons c rest ih =>
    rw [dropFence.eq_def]
    split
    · rename_i rest2 heq
      exfalso
      apply h
      injection heq with h1 h2
      subst h1; subst h2
      exact ⟨[], rest2, rfl⟩
    · rename_i c2 rest2 hne heq
      injection heq with h1 h2
      subst h1; subst h2
      rw [ih (no_fence_tail h)]
    · rename_i heq
      cases heq

theorem sanitize_not_fence (s : List Char) : ¬ fence3 <:+: sanitizeChars s := by
  intro h
  exact no_fence_dropFence (dropSqlFence (pyStrip s))
    ( List.IsInfix.trans h (pyStrip_within _))

theorem sanitize_stripped (s : List Char) :
    pyStrip (sanitizeChars s) = sanitizeChars s :=
  pyStrip_idem _

theorem sanitize_idem (s : List Char) :
    sanitizeChars (sanitizeChars s) = sanitizeChars s := by
  have hnf := sanitize_not_fence s
  show pyStrip (dropFence (dropSqlFence (pyStrip (sanitizeChars s)))) = sanitizeChars s
  rw [sanitize_stripped s, dropSqlFence_of_no_fence hnf, dropFence_of_no_fence hnf,
    sanitize_stripped s]

/-!
Claim theorems.
-/

/-- C1, counterexample: the claim promises a non-empty string for every
text the service may return, but a response consisting of a bare fence
marker — itself a non-empty service text — sanitizes to the empty
string. -/
theorem sanitizeStr_fence_only_empty :
    sanitizeStr "```" = "" ∧ ("```" : String) ≠ "" := by
  constructor
  · decide
  · decide

/-- C1 (amended): for every text the service may return, the sanitized
result of `generate_sql_query` contains no residual markdown code-fence
marker — neither a ```` ```sql ```` tag nor a bare ```` ``` ```` — and
carries no leading or trailing whitespace; it is not guaranteed to be
non-empty. -/
theorem sanitizeStr_no_fence_markers_stripped (s : String) :
    ¬ fenceSql <:+: (sanitizeStr s).data ∧
    ¬ fence3 <:+: (sanitizeStr s).data ∧
    pyStripStr (sanitizeStr s) = sanitizeStr s := by
  have hfence : ¬ fence3 <:+: (sanitizeStr s).data := sanitize_not_fence s.data
  refine ⟨no_sql_of_no_fence hfence, hfence, ?_⟩
  show String.mk (pyStrip (sanitizeChars s.data)) = String.mk (sanitizeChars s.data)
  rw [sanitize_stripped s.data]

/-- C9: the post-processing sanitizer of `generate_sql_query`
(strip, delete ```` ```sql ````, delete ```` ``` ````, strip) is
idempotent. -/
theorem sanitizeStr_idempotent (s : String) :
    sanitizeStr (sanitizeStr s) = sanitizeStr s := by
  show String.mk (sanitizeChars (sanitizeChars s.data)) = String.mk (sanitizeChars s.data)
  rw [sanitize_idem s.data]

/-- C7: against the seeded demo database, the 2022 royalty totals per
work are exactly 3200.00, 2200.00, 3700.00 and 3000.00 (stated in
cents), and exactly 4 distinct works hold royalty rows in that period,
so a per-work grouped total-royalties query returns exactly 4 rows. -/
theorem demo_db_royalty_totals_2022 :
    totalRoyaltyCents2022 1 = 320000 ∧ totalRoyaltyCents2022 2 = 220000 ∧
    totalRoyaltyCents2022 3 = 370000 ∧ totalRoyaltyCents2022 4 = 300000 ∧
    worksWithRoyalties2022.length = 4 := by
  decide

/-- C10: in the seeded demo database every work referenced in
`work_contributors` has share percentages summing to exactly 100.00
(10000 hundredths of a percent), and every `work_id` appearing in
`work_contributors` or `royalties` references an existing row of
`works`. -/
theorem demo_db_share_splits_and_foreign_keys :
    (∀ w ∈ work_contributors_rows.map WorkContributor.work_id,
      shareSumHundredths w = 10000) ∧
    (∀ wc ∈ work_contributors_rows, wc.work_id ∈ works_rows.map Work.work_id) ∧
    (∀ r ∈ royalties_rows, r.work_id ∈ works_rows.map Work.work_id) := by
  decide

/-- Witness for C10 at work 3 (the 33.33/33.33/33.34 split) and at the
first royalty row. -/
theorem demo_db_share_splits_and_foreign_keys_witness :
    shareSumHundredths 3 = 10000 ∧
    (1 : Nat) ∈ works_rows.map Work.work_id :=
  ⟨demo_db_share_splits_and_foreign_keys.1 3 (by decide),
   demo_db_share_splits_and_foreign_keys.2.2
     ⟨1001, 1, 150000, "2022-01-01", "2022-06-30"⟩ (by decide)⟩

/-- C8: the prompt passed to the generation service is a deterministic
function of (question, schema), built from the fixed template; it
embeds the schema description and the user question verbatim, contains
the instruction to return only raw SQL without markdown formatting,
and the request carries `temperature = 0`; identical inputs construct
byte-identical requests. -/
theorem buildChatRequest_deterministic (user_question schema_description : String) :
    (buildChatRequest user_question schema_description).temperature = 0 ∧
    (buildChatRequest user_question schema_description).model = "gpt-3.5-turbo" ∧
    schema_description.data <:+: (buildPrompt user_question schema_description).data ∧
    user_question.data <:+: (buildPrompt user_question schema_description).data ∧
    ("Return ONLY the raw SQL query, no markdown formatting").data <:+:
      (buildPrompt user_question schema_description).data ∧
    (∀ q2 s2, user_question = q2 → schema_description = s2 →
      buildChatRequest user_question schema_description = buildChatRequest q2 s2) := by
  refine ⟨rfl, rfl, ?_, ?_, ?_, ?_⟩
  · refine ⟨promptHead.data, (promptMid ++ user_question ++ promptTail).data, ?_⟩
    simp only [buildPrompt, String.data_append, List.append_assoc]
  · refine ⟨(promptHead ++ schema_description ++ promptMid).data, promptTail.data, ?_⟩
    simp only [buildPrompt, String.data_append, List.append_assoc]
  · have h1 : ("Return ONLY the raw SQL query, no markdown formatting").data <:+:
        promptTail.data :=
      ⟨"\n\n".data, (", no ```sql tags, no backticks.").data, by decide⟩
    have h2 : promptTail.data <:+:
        (buildPrompt user_question schema_description).data := by
      refine ⟨(promptHead ++ schema_description ++ promptMid ++ user_question).data, [], ?_⟩
      simp only [buildPrompt, String.data_append, List.append_assoc, List.append_nil]
    exact List.IsInfix.trans h1 h2
  · intro q2 s2 hq hs
    subst hq; subst hs
    rfl

/-- Witness for C8 on a concrete question and the application's schema
text. -/
theorem buildChatRequest_deterministic_witness :
    (buildChatRequest "total royalties per work in 2022" schema_text).temperature = 0 ∧
    buildChatRequest "total royalties per work in 2022" schema_text =
      buildChatRequest "total royalties per work in 2022" schema_text :=
  ⟨(buildChatRequest_deterministic "total royalties per work in 2022" schema_text).1,
   (buildChatRequest_deterministic "total royalties per work in 2022" schema_text).2.2.2.2.2
     "total royalties per work in 2022" schema_text rfl rfl⟩

theorem runQueryAction_eval_exn (envApiKey enteredKey user_query m : String)
    (svc : ChatRequest → SvcOutcome) (runSql : String → Except String (List Row))
    (hkey : effectiveKey envApiKey enteredKey ≠ "")
    (hq : pyStripStr user_query ≠ "")
    (hsvc : svc (buildChatRequest user_query schema_text) = .exn m) :
    runQueryAction envApiKey enteredKey user_query svc runSql =
      (.uncaughtException m, ⟨1, 0, 0, 0⟩) := by
  simp only [runQueryAction, if_neg hkey, if_neg hq, generate_sql_query, hsvc, noCalls]

theorem runQueryAction_eval_ok (envApiKey enteredKey user_query content : String)
    (svc : ChatRequest → SvcOutcome) (runSql : String → Except String (List Row))
    (hkey : effectiveKey envApiKey enteredKey ≠ "")
    (hq : pyStripStr user_query ≠ "")
    (hsvc : svc (buildChatRequest user_query schema_text) = .ok content) :
    runQueryAction envApiKey enteredKey user_query svc runSql =
      match readSqlScoped runSql (sanitizeStr content) ⟨1, 0, 0, 0⟩ with
      | (.error e, counts2) =>
        (.executionError (sanitizeStr content) ("Error executing SQL: " ++ e), counts2)
      | (.ok df, counts2) =>
        if df.isEmpty then (.noData (sanitizeStr content), counts2)
        else (.results (sanitizeStr content) df, counts2) := by
  simp only [runQueryAction, if_neg hkey, if_neg hq, generate_sql_query, hsvc, noCalls]

/-- C2: executing an invalid query never crashes the pipeline — the
engine error is caught and surfaced as the execution-error outcome
carrying the original diagnostic inside the user-facing message, the
scoped connection is opened and closed exactly once even on the
exception path, and a subsequent execution on the same engine oracle
still succeeds. -/
theorem runQueryAction_invalid_sql_handled
    (envApiKey enteredKey user_query content e : String)
    (svc : ChatRequest → SvcOutcome) (runSql : String → Except String (List Row))
    (hkey : effectiveKey envApiKey enteredKey ≠ "")
    (hq : pyStripStr user_query ≠ "")
    (hsvc : svc (buildChatRequest user_query schema_text) = .ok content)
    (hrun : runSql (sanitizeStr content) = .error e) :
    runQueryAction envApiKey enteredKey user_query svc runSql =
      (.executionError (sanitizeStr content) ("Error executing SQL: " ++ e),
        ⟨1, 1, 1, 1⟩) ∧
    e.data <:+: ("Error executing SQL: " ++ e).data ∧
    (∀ m, (runQueryAction envApiKey enteredKey user_query svc runSql).1 ≠
      .uncaughtException m) ∧
    (∀ sql2 rows, runSql sql2 = .ok rows →
      (readSqlScoped runSql sql2
        (runQueryAction envApiKey enteredKey user_query svc runSql).2).1 = .ok rows) := by
  have hmain : runQueryAction envApiKey enteredKey user_query svc runSql =
      (.executionError (sanitizeStr content) ("Error executing SQL: " ++ e),
        ⟨1, 1, 1, 1⟩) := by
    rw [runQueryAction_eval_ok envApiKey enteredKey user_query content svc runSql
      hkey hq hsvc]
    simp only [readSqlScoped, hrun]
  refine ⟨hmain, ?_, ?_, ?_⟩
  · rw [String.data_append]
    exact ⟨("Error executing SQL: ").data, [], by simp⟩
  · intro m
    rw [hmain]
    intro hcontra
    cases hcontra
  · intro sql2 rows h2
    rw [hmain]
    simp only [readSqlScoped, h2]

/-- Witness for C2: the syntactically invalid `"SELEKT * FROM works"`
is reported as an execution error with balanced connection open/close
counts. -/
theorem runQueryAction_invalid_sql_handled_witness :
    runQueryAction "sk-test" "" "total royalties per work in 2022"
        (fun _ => .ok "SELEKT * FROM works")
        (fun _ => .error "(sqlite3.OperationalError) near SELEKT: syntax error") =
      (.executionError (sanitizeStr "SELEKT * FROM works")
        ("Error executing SQL: " ++ "(sqlite3.OperationalError) near SELEKT: syntax error"),
        ⟨1, 1, 1, 1⟩) :=
  (runQueryAction_invalid_sql_handled "sk-test" "" "total royalties per work in 2022"
    "SELEKT * FROM works" "(sqlite3.OperationalError) near SELEKT: syntax error"
    (fun _ => .ok "SELEKT * FROM works")
    (fun _ => .error "(sqlite3.OperationalError) near SELEKT: syntax error")
    (by decide) (by decide) rfl rfl).1

/-- C3: with missing credentials (no environment key, nothing entered
in the password box) the action surfaces the blocking credential
prompt — the spec's AuthenticationError — and performs no generation
call and no execution attempt. -/
theorem runQueryAction_missing_credentials (envApiKey enteredKey user_query : String)
    (svc : ChatRequest → SvcOutcome) (runSql : String → Except String (List Row))
    (hkey : effectiveKey envApiKey enteredKey = "") :
    runQueryAction envApiKey enteredKey user_query svc runSql =
      (.authenticationError, noCalls) ∧
    (runQueryAction envApiKey enteredKey user_query svc runSql).2.genCalls = 0 ∧
    (runQueryAction envApiKey enteredKey user_query svc runSql).2.execAttempts = 0 := by
  have h : runQueryAction envApiKey enteredKey user_query svc runSql =
      (.authenticationError, noCalls) := by
    simp only [runQueryAction, if_pos hkey]
  exact ⟨h, by rw [h]; rfl, by rw [h]; rfl⟩

/-- Witness for C3 with both key sources empty. -/
theorem runQueryAction_missing_credentials_witness :
    runQueryAction "" "" "total royalties per work in 2022"
        (fun _ => .ok "SELECT 1;") (fun _ => .ok []) =
      (.authenticationError, noCalls) :=
  (runQueryAction_missing_credentials "" "" "total royalties per work in 2022"
    (fun _ => .ok "SELECT 1;") (fun _ => .ok []) (by decide)).1

/-- C4, counterexample: a generation-service failure is not caught
inside the cycle — with valid credentials and a non-empty question, a
service exception escapes `main` as an uncaught fault instead of being
converted to a user-facing message, refuting the claim that every
failure is caught at the pipeline boundary. -/
theorem runQueryAction_service_failure_uncaught :
    (runQueryAction "sk-test" "" "total royalties per work in 2022"
        (fun _ => .exn "APITimeoutError: Request timed out.")
        (fun _ => .ok [])).1 =
      .uncaughtException "APITimeoutError: Request timed out." := by
  decide

/-- C4 (amended): a SQL execution failure is caught at the pipeline
boundary and converted to a user-facing message, but a
generation-service failure is not caught within the cycle and
propagates to the presentation layer as an uncaught exception. -/
theorem runQueryAction_error_propagation (envApiKey enteredKey user_query : String)
    (svc : ChatRequest → SvcOutcome) (runSql : String → Except String (List Row))
    (hkey : effectiveKey envApiKey enteredKey ≠ "")
    (hq : pyStripStr user_query ≠ "") :
    (∀ content e, svc (buildChatRequest user_query schema_text) = .ok content →
      runSql (sanitizeStr content) = .error e →
      (runQueryAction envApiKey enteredKey user_query svc runSql).1 =
        .executionError (sanitizeStr content) ("Error executing SQL: " ++ e)) ∧
    (∀ m, svc (buildChatRequest user_query schema_text) = .exn m →
      (runQueryAction envApiKey enteredKey user_query svc runSql).1 =
        .uncaughtException m) := by
  constructor
  · intro content e hsvc hrun
    rw [runQueryAction_eval_ok envApiKey enteredKey user_query content svc runSql
      hkey hq hsvc]
    simp only [readSqlScoped, hrun]
  · intro m hsvc
    rw [runQueryAction_eval_exn envApiKey enteredKey user_query m svc runSql
      hkey hq hsvc]

/-- Witness for the amended C4: the execution-failure branch is caught
on a concrete invalid query. -/
theorem runQueryAction_error_propagation_witness :
    (runQueryAction "sk-test" "" "total royalties per work in 2022"
        (fun _ => .ok "SELEKT * FROM works") (fun _ => .error "syntax error")).1 =
      .executionError (sanitizeStr "SELEKT * FROM works")
        ("Error executing SQL: " ++ "syntax error") :=
  (runQueryAction_error_propagation "sk-test" "" "total royalties per work in 2022"
    (fun _ => .ok "SELEKT * FROM works") (fun _ => .error "syntax error")
    (by decide) (by decide)).1 "SELEKT * FROM works" "syntax error" rfl rfl

/-- C5: a successful execution with zero rows surfaces the distinct
no-data outcome, never the execution-error outcome, and the two
outcomes are never confused: they are distinct constructors. -/
theorem runQueryAction_empty_result_no_data
    (envApiKey enteredKey user_query content : String)
    (svc : ChatRequest → SvcOutcome) (runSql : String → Except String (List Row))
    (hkey : effectiveKey envApiKey enteredKey ≠ "")
    (hq : pyStripStr user_query ≠ "")
    (hsvc : svc (buildChatRequest user_query schema_text) = .ok content)
    (hrun : runSql (sanitizeStr content) = .ok []) :
    (runQueryAction envApiKey enteredKey user_query svc runSql).1 =
      .noData (sanitizeStr content) ∧
    (∀ sql msg, (runQueryAction envApiKey enteredKey user_query svc runSql).1 ≠
      .executionError sql msg) ∧
    (∀ sql sql2 msg, Outcome.noData sql ≠ .executionError sql2 msg) := by
  have h1 : (runQueryAction envApiKey enteredKey user_query svc runSql).1 =
      .noData (sanitizeStr content) := by
    rw [runQueryAction_eval_ok envApiKey enteredKey user_query content svc runSql
      hkey hq hsvc]
    simp only [readSqlScoped, hrun, List.isEmpty_nil, if_pos]
  refine ⟨h1, ?_, ?_⟩
  · intro sql msg hcontra
    rw [h1] at hcontra
    cases hcontra
  · intro sql sql2 msg hcontra
    cases hcontra

/-- Witness for C5 on a valid query matching no rows. -/
theorem runQueryAction_empty_result_no_data_witness :
    (runQueryAction "sk-test" "" "royalties in 2023"
        (fun _ => .ok "SELECT * FROM royalties WHERE period_start >= '2023-01-01';")
        (fun _ => .ok [])).1 =
      .noData (sanitizeStr "SELECT * FROM royalties WHERE period_start >= '2023-01-01';") :=
  (runQueryAction_empty_result_no_data "sk-test" "" "royalties in 2023"
    "SELECT * FROM royalties WHERE period_start >= '2023-01-01';"
    (fun _ => .ok "SELECT * FROM royalties WHERE period_start >= '2023-01-01';")
    (fun _ => .ok []) (by decide) (by decide) rfl rfl).1

/-- C6: one button press with a non-empty question and credentials
present performs exactly one generation-service call and at most one
SQL execution attempt — no retry and no re-execution within the same
action. -/
theorem runQueryAction_single_generation_single_execution
    (envApiKey enteredKey user_query : String)
    (svc : ChatRequest → SvcOutcome) (runSql : String → Except String (List Row))
    (hkey : effectiveKey envApiKey enteredKey ≠ "")
    (hq : pyStripStr user_query ≠ "") :
    (runQueryAction envApiKey enteredKey user_query svc runSql).2.genCalls = 1 ∧
    (runQueryAction envApiKey enteredKey user_query svc runSql).2.execAttempts ≤ 1 := by
  cases hsvc : svc (buildChatRequest user_query schema_text) with
  | exn m =>
    rw [runQueryAction_eval_exn envApiKey enteredKey user_query m svc runSql
      hkey hq hsvc]
    exact ⟨rfl, Nat.zero_le 1⟩
  | ok content =>
    rw [runQueryAction_eval_ok envApiKey enteredKey user_query content svc runSql
      hkey hq hsvc]
    cases hrun : runSql (sanitizeStr content) with
    | error e =>
      simp [readSqlScoped, hrun]
    | ok df =>
      by_cases hdf : df.isEmpty
      · simp [readSqlScoped, hrun, hdf]
      · simp [readSqlScoped, hrun, hdf]

/-- Witness for C6 on a concrete successful cycle. -/
theorem runQueryAction_single_generation_single_execution_witness :
    (runQueryAction "sk-test" "" "total royalties per work in 2022"
        (fun _ => .ok "SELECT 1;")
        (fun _ => .ok [[("one", "1")]])).2.genCalls = 1 ∧
    (runQueryAction "sk-test" "" "total royalties per work in 2022"
        (fun _ => .ok "SELECT 1;")
        (fun _ => .ok [[("one", "1")]])).2.execAttempts ≤ 1 :=
  runQueryAction_single_generation_single_execution "sk-test" ""
    "total royalties per work in 2022" (fun _ => .ok "SELECT 1;")
    (fun _ => .ok [[("one", "1")]]) (by decide) (by decide)
